import Mathlib

/-!
Shallow embedding of the AI-Music-Visualizer rendering, animation and capture
code: `VisualizerCanvas` (src/unnamed/part_001), the `App` component and its
`handleDownload` / `handleGeneratePalette` handlers together with `drawTitle`
and `RESOLUTIONS` (second half of src/services/geminiService.ts), and the
`generateColorPalette` provider wrapper (first half of the same file).

Floating-point numbers are modelled as rationals (all the constants involved
are exact decimals), a `Uint8Array` frequency sample as the function giving
the byte stored at each index, and a 2D canvas surface as the ordered list of
drawing operations issued against it — two frames are pixel-identical exactly
when their operation lists coincide, because every operation records all the
parameters that determine its pixels.
-/

namespace MusicVisualizer

/-- NUM_BARS = 128, the number of visualizer bars (part_001 line 90,
geminiService line 329). -/
def NUM_BARS : ℕ := 128

/-- Frequency-bin index of bar `i`:
`Math.floor((i / NUM_BARS) * (analyserNode.frequencyBinCount * 0.5))`
(part_001 line 96, geminiService line 334). -/
def dataIndex (binCount i : ℕ) : ℕ :=
  Nat.floor ((i : ℚ) / (NUM_BARS : ℚ) * ((binCount : ℚ) * 0.5))

/-- Target length of bar `i`: `(dataArray[dataIndex] / 255) * maxBarLength`
(part_001 line 97, geminiService line 335). -/
def targetLength (sample : ℕ → ℕ) (binCount : ℕ) (maxBarLength : ℚ) (i : ℕ) : ℚ :=
  ((sample (dataIndex binCount i) : ℚ) / 255) * maxBarLength

/-- The attack/decay rule for one bar (part_001 lines 101-103, geminiService
lines 338-340): rise instantly to the target, otherwise fall by at most 2.5
percent of the maximum bar length per tick. -/
def advanceBar (oldLength target maxBarLength : ℚ) : ℚ :=
  if target ≥ oldLength then target else max target (oldLength - maxBarLength * 0.025)

/-- One pass of the bar-update loop (part_001 lines 93-121, geminiService
lines 332-357). `prev.getD i 0` models the JS read
`barLengthsRef.current[i] || 0` (an index past the end reads `undefined`,
which `|| 0` turns into 0; `|| 0` fixes the value 0 itself). -/
def advance (prev : List ℚ) (sample : ℕ → ℕ) (binCount : ℕ) (maxBarLength : ℚ) : List ℚ :=
  (List.range NUM_BARS).map fun i =>
    advanceBar (prev.getD i 0) (targetLength sample binCount maxBarLength i) maxBarLength

/-- The i-th entry of `advance` is the per-bar rule applied at i. -/
theorem advance_getD (prev : List ℚ) (sample : ℕ → ℕ) (binCount : ℕ)
    (maxBarLength : ℚ) (i : ℕ) (hi : i < NUM_BARS) :
    (advance prev sample binCount maxBarLength).getD i 0 =
      advanceBar (prev.getD i 0) (targetLength sample binCount maxBarLength i) maxBarLength := by
  unfold advance
  rw [List.getD_eq_getElem _ _ (by simpa using hi), List.getElem_map, List.getElem_range]

/-- C1: the advance step computes bin index, target and the attack/decay
result exactly as the spec states, for every bar index `i < 128`. -/
theorem advance_step_formula (prev : List ℚ) (sample : ℕ → ℕ) (binCount : ℕ)
    (maxLength : ℚ) (i : ℕ) (hi : i < 128) :
    (advance prev sample binCount maxLength).getD i 0 =
      (let binIndex := Nat.floor ((i : ℚ) / 128 * (binCount : ℚ) * 0.5)
       let target := ((sample binIndex : ℚ) / 255) * maxLength
       if target ≥ prev.getD i 0 then target
       else max target (prev.getD i 0 - maxLength * 0.025)) := by
  rw [advance_getD prev sample binCount maxLength i hi]
  have hidx : dataIndex binCount i = Nat.floor ((i : ℚ) / 128 * (binCount : ℚ) * 0.5) := by
    unfold dataIndex
    rw [show ((NUM_BARS : ℕ) : ℚ) = 128 by norm_num [NUM_BARS]]
    exact congrArg Nat.floor (by ring)
  simp only [advanceBar, targetLength, hidx]

/-- C1 witness: the formula instantiated at a concrete bar. -/
theorem advance_step_formula_witness :
    (advance [] (fun _ => 200) 1024 100).getD 3 0 =
      (let binIndex := Nat.floor ((3 : ℚ) / 128 * (1024 : ℚ) * 0.5)
       let target := ((200 : ℚ) / 255) * 100
       if target ≥ ([] : List ℚ).getD 3 0 then target
       else max target (([] : List ℚ).getD 3 0 - 100 * 0.025)) :=
  advance_step_formula [] (fun _ => 200) 1024 100 3 (by norm_num)

/-- C2: with the previous length in `[0, maxLength]` and the sample byte in
`0..255`, the per-bar advance stays in `[0, maxLength]`; on attack it returns
the target exactly; on decay it loses at most 2.5 percent of `maxLength` and
never falls below the target. -/
theorem advance_bounds (oldLength maxLength : ℚ) (s : ℕ)
    (h0 : 0 ≤ oldLength) (h1 : oldLength ≤ maxLength) (hs : s ≤ 255) :
    (0 ≤ advanceBar oldLength (((s : ℚ) / 255) * maxLength) maxLength ∧
      advanceBar oldLength (((s : ℚ) / 255) * maxLength) maxLength ≤ maxLength) ∧
    (((s : ℚ) / 255) * maxLength ≥ oldLength →
      advanceBar oldLength (((s : ℚ) / 255) * maxLength) maxLength =
        ((s : ℚ) / 255) * maxLength) ∧
    (((s : ℚ) / 255) * maxLength < oldLength →
      oldLength - advanceBar oldLength (((s : ℚ) / 255) * maxLength) maxLength ≤
          maxLength * 0.025 ∧
        advanceBar oldLength (((s : ℚ) / 255) * maxLength) maxLength ≥
          ((s : ℚ) / 255) * maxLength) := by
  have hmax : 0 ≤ maxLength := le_trans h0 h1
  have hsq : (s : ℚ) ≤ 255 := by exact_mod_cast hs
  have hsq0 : 0 ≤ (s : ℚ) := Nat.cast_nonneg s
  have htarget0 : 0 ≤ ((s : ℚ) / 255) * maxLength := by positivity
  have htarget1 : ((s : ℚ) / 255) * maxLength ≤ maxLength := by
    have : (s : ℚ) / 255 ≤ 1 := by
      rw [div_le_one (by norm_num)]
      exact hsq
    nlinarith
  unfold advanceBar
  by_cases hcase : ((s : ℚ) / 255) * maxLength ≥ oldLength
  · rw [if_pos hcase]
    refine ⟨⟨htarget0, htarget1⟩, fun _ => rfl, fun hlt => absurd hcase (not_le.mpr hlt)⟩
  · rw [if_neg hcase]
    push_neg at hcase
    constructor
    · constructor
      · exact le_trans htarget0 (le_max_left _ _)
      · apply max_le htarget1
        nlinarith
    constructor
    · intro hge
      exact absurd hge (not_le.mpr hcase)
    · intro _
      refine ⟨?_, le_max_left _ _⟩
      have := le_max_right (((s : ℚ) / 255) * maxLength) (oldLength - maxLength * 0.025)
      linarith

/-- C2 witness: bounds at a concrete decaying bar. -/
theorem advance_bounds_witness :
    (0 ≤ advanceBar 50 (((100 : ℕ) : ℚ) / 255 * 100) 100 ∧
      advanceBar 50 (((100 : ℕ) : ℚ) / 255 * 100) 100 ≤ 100) ∧
    (((100 : ℕ) : ℚ) / 255 * 100 ≥ 50 →
      advanceBar 50 (((100 : ℕ) : ℚ) / 255 * 100) 100 = ((100 : ℕ) : ℚ) / 255 * 100) ∧
    (((100 : ℕ) : ℚ) / 255 * 100 < 50 →
      50 - advanceBar 50 (((100 : ℕ) : ℚ) / 255 * 100) 100 ≤ 100 * 0.025 ∧
        advanceBar 50 (((100 : ℕ) : ℚ) / 255 * 100) 100 ≥ ((100 : ℕ) : ℚ) / 255 * 100) :=
  advance_bounds 50 100 100 (by norm_num) (by norm_num) (by norm_num)

/-- C10: for every bar index `i < 128` and bin count at least 1, the computed
data index is strictly below the bin count, so the frequency-array read is in
bounds in both render loops. -/
theorem dataIndex_lt_binCount (binCount i : ℕ) (hb : 1 ≤ binCount) (hi : i < 128) :
    dataIndex binCount i < binCount := by
  unfold dataIndex NUM_BARS
  have hbq : (0 : ℚ) < binCount := by exact_mod_cast hb
  have hiq : (i : ℚ) < 128 := by exact_mod_cast hi
  have hval : (i : ℚ) / 128 * ((binCount : ℚ) * 0.5) < binCount := by
    rw [div_mul_eq_mul_div, div_lt_iff₀ (by norm_num)]
    nlinarith
  have hpos : 0 ≤ (i : ℚ) / 128 * ((binCount : ℚ) * 0.5) := by positivity
  exact (Nat.floor_lt hpos).mpr (by exact_mod_cast hval)

/-- C10 witness: the bound at a concrete bar and bin count. -/
theorem dataIndex_lt_binCount_witness : dataIndex 1024 127 < 1024 :=
  dataIndex_lt_binCount 1024 127 (by norm_num) (by norm_num)

/-- A decoded centre image: only its dimensions matter for layout. -/
structure Image where
  width : ℚ
  height : ℚ
deriving DecidableEq

/-- One drawing operation issued against a 2D surface. Each constructor
records every parameter that determines the pixels the operation touches
(a bar's endpoints are determined by its index, the inner radius and its
length through the fixed angle formula, so those parameters are recorded in
place of the cosines). -/
inductive DrawOp where
  | fill (color : Option String) (width height : ℚ)
  | imageInCircle (img : Image) (x y w h radius : ℚ)
  | barLine (color : Option String) (lineWidth : ℚ) (index : ℕ) (radius length : ℚ)
  | text (fontSize : ℚ) (color : String) (s : String) (x y : ℚ)
deriving DecidableEq

/-- JS `String.prototype.trim`: drop whitespace characters from both ends,
modelled structurally over the string's character list. -/
def jsTrim (s : String) : String :=
  String.mk (((s.data.dropWhile Char.isWhitespace).reverse.dropWhile
    Char.isWhitespace).reverse)

/-- The function drawTitle (part_001 lines 11-24 and geminiService lines
81-94, two identical copies): draws nothing when the trimmed text is empty
(JS `if (!text.trim()) return`), else one centred fillText near the bottom,
font size clamped between 24 and 80. -/
def drawTitle (text : String) (width height : ℚ) : List DrawOp :=
  if jsTrim text = "" then []
  else
    let fontSize := max 24 (min (width * 0.05) 80)
    [DrawOp.text fontSize "rgba(255, 255, 255, 0.95)" text (width / 2)
      (height - fontSize * 2)]

/-- JS `x || d` on a possibly-undefined string: `undefined` and `""` are
falsy. -/
def jsOrString (s : Option String) (d : String) : String :=
  match s with
  | none => d
  | some c => if c = "" then d else c

/-- The default two-color bar set pushed by the live canvas when the palette
has no bar colors (part_001 line 56). -/
def defaultBarColors : List String := ["#8A2BE2", "#FFFFFF"]

/-- Bar colors used by the live canvas (part_001 lines 51 and 56):
`const [backgroundColor, ...barColors] = colors` followed by
`if (barColors.length === 0) barColors.push('#8A2BE2', '#FFFFFF')`. -/
def liveBarColors (colors : List String) : List String :=
  if (colors.drop 1).isEmpty then defaultBarColors else colors.drop 1

/-- JS `barColors[i % colorCount]`: when `colorCount = 0`, `i % 0` is `NaN`
and the lookup yields `undefined` (modelled as `none`). -/
def strokeColor (barColors : List String) (i : ℕ) : Option String :=
  if barColors.length = 0 then none else barColors[i % barColors.length]?

/-- The centre-image step of a frame (part_001 lines 64-87, geminiService
lines 314-327): clip to the centre circle and draw the image fit by its
shorter dimension. -/
def imageOps (image : Option Image) (width height : ℚ) : List DrawOp :=
  match image with
  | none => []
  | some img =>
      let radius := min width height * 0.2
      let circleDiameter := radius * 2
      let imgAspect := img.width / img.height
      let drawWidth := if imgAspect > 1 then circleDiameter else circleDiameter * imgAspect
      let drawHeight := if imgAspect > 1 then circleDiameter / imgAspect else circleDiameter
      [DrawOp.imageInCircle img (width / 2 - drawWidth / 2) (height / 2 - drawHeight / 2)
        drawWidth drawHeight radius]

/-- The bar-drawing steps of one frame (part_001 lines 93-120, geminiService
lines 332-356): bar i is stroked with `barColors[i % colorCount]`, line
width 4, from the inner radius out to the freshly advanced length. -/
def barOps (barColors : List String) (sample : ℕ → ℕ) (binCount : ℕ)
    (prev : List ℚ) (width height : ℚ) : List DrawOp :=
  let radius := min width height * 0.2
  let maxBarLength := min width height * 0.35
  (List.range NUM_BARS).map fun i =>
    DrawOp.barLine (strokeColor barColors i) 4 i radius
      (advanceBar (prev.getD i 0) (targetLength sample binCount maxBarLength i) maxBarLength)

/-- One frame of the live draw loop in VisualizerCanvas (part_001 lines
41-124): background fill with the `|| '#000000'` fallback, the optional
centre image, 128 bars with the live bar-color fallback, then the title. -/
def liveDrawFrame (colors : List String) (sample : ℕ → ℕ) (binCount : ℕ)
    (image : Option Image) (videoTitle : String) (prev : List ℚ)
    (width height : ℚ) : List DrawOp :=
  DrawOp.fill (some (jsOrString colors.head? "#000000")) width height ::
    (imageOps image width height ++
      barOps (liveBarColors colors) sample binCount prev width height ++
      drawTitle videoTitle width height)

/-- The live frame with the title step removed entirely: what the loop draws
when rendering with no title at all. -/
def liveDrawFrameNoTitle (colors : List String) (sample : ℕ → ℕ) (binCount : ℕ)
    (image : Option Image) (prev : List ℚ) (width height : ℚ) : List DrawOp :=
  DrawOp.fill (some (jsOrString colors.head? "#000000")) width height ::
    (imageOps image width height ++
      barOps (liveBarColors colors) sample binCount prev width height)

/-- One frame of drawOffscreen in App.handleDownload (geminiService lines
297-362), in the recording-active case: the same steps, but the background
color and the bar colors come from the palette with no fallback branch. -/
def drawOffscreenFrame (colors : List String) (sample : ℕ → ℕ) (binCount : ℕ)
    (image : Option Image) (videoTitle : String) (prev : List ℚ)
    (width height : ℚ) : List DrawOp :=
  DrawOp.fill colors.head? width height ::
    (imageOps image width height ++
      barOps (colors.drop 1) sample binCount prev width height ++
      drawTitle videoTitle width height)

/-- The offscreen frame with the title step removed entirely. -/
def drawOffscreenFrameNoTitle (colors : List String) (sample : ℕ → ℕ) (binCount : ℕ)
    (image : Option Image) (prev : List ℚ) (width height : ℚ) : List DrawOp :=
  DrawOp.fill colors.head? width height ::
    (imageOps image width height ++
      barOps (colors.drop 1) sample binCount prev width height)

/-- The analyser state a render loop can see: the bin count and the byte at
each index of the Uint8Array filled by `getByteFrequencyData`. -/
structure AnalyserData where
  binCount : ℕ
  sample : ℕ → ℕ

/-- The drawing performed by VisualizerCanvas's effect for its first frame
(part_001 lines 32-139): line 34 returns before any drawing when no analyser
node is attached, otherwise `draw()` renders one full frame. -/
def useEffectFirstFrame (analyser : Option AnalyserData) (colors : List String)
    (image : Option Image) (videoTitle : String) (prev : List ℚ)
    (width height : ℚ) : Option (List DrawOp) :=
  match analyser with
  | none => none
  | some a => some (liveDrawFrame colors a.sample a.binCount image videoTitle prev width height)

/-- C8: with an empty or whitespace-only title the title step is the
identity on the surface, so both the live frame and the offscreen frame are
identical to the frames rendered with no title step at all. -/
theorem title_omission (colors : List String) (sample : ℕ → ℕ) (binCount : ℕ)
    (image : Option Image) (title : String) (prev : List ℚ) (width height : ℚ)
    (h : jsTrim title = "") :
    drawTitle title width height = [] ∧
    liveDrawFrame colors sample binCount image title prev width height =
      liveDrawFrameNoTitle colors sample binCount image prev width height ∧
    drawOffscreenFrame colors sample binCount image title prev width height =
      drawOffscreenFrameNoTitle colors sample binCount image prev width height := by
  have ht : drawTitle title width height = [] := by
    simp [drawTitle, h]
  refine ⟨ht, ?_, ?_⟩ <;>
    simp [liveDrawFrame, liveDrawFrameNoTitle, drawOffscreenFrame,
      drawOffscreenFrameNoTitle, ht]

/-- C8 witness: a whitespace-only title at concrete inputs. -/
theorem title_omission_witness :
    drawTitle "  " 100 50 = [] ∧
    liveDrawFrame ["#000000", "#FFFFFF"] (fun _ => 0) 16 none "  " [] 100 50 =
      liveDrawFrameNoTitle ["#000000", "#FFFFFF"] (fun _ => 0) 16 none [] 100 50 ∧
    drawOffscreenFrame ["#000000", "#FFFFFF"] (fun _ => 0) 16 none "  " [] 100 50 =
      drawOffscreenFrameNoTitle ["#000000", "#FFFFFF"] (fun _ => 0) 16 none [] 100 50 :=
  title_omission ["#000000", "#FFFFFF"] (fun _ => 0) 16 none "  " [] 100 50 (by decide)

/-- The palette-fallback claim as stated: whenever the bar-color portion of
the palette is empty, the live surface and the offscreen capture surface
both stroke every bar with the default two-color bar set. -/
def claimPaletteFallback : Prop :=
  ∀ (colors : List String), (colors.drop 1).isEmpty = true →
    ∀ i : ℕ,
      strokeColor (liveBarColors colors) i = defaultBarColors[i % 2]? ∧
      strokeColor (colors.drop 1) i = defaultBarColors[i % 2]?

/-- C3 counterexample: for the one-color palette `["#000000"]` the offscreen
capture path has no fallback branch — bar 0's color lookup yields
`undefined`, not the first default bar color. -/
theorem palette_fallback_counterexample : ¬ claimPaletteFallback := by
  intro h
  exact absurd (h ["#000000"] (by decide) 0).2 (by decide)

/-- C3 amended: the live surface falls back to the default two-color bar set
when the palette has no bar colors, but the offscreen capture surface does
not: every bar-color lookup there yields `undefined` (`none`). -/
theorem palette_fallback_live_only (colors : List String)
    (h : (colors.drop 1).isEmpty = true) (i : ℕ) :
    strokeColor (liveBarColors colors) i = defaultBarColors[i % 2]? ∧
    strokeColor (colors.drop 1) i = none := by
  rw [List.isEmpty_iff] at h
  refine ⟨?_, by simp [strokeColor, h]⟩
  simp [liveBarColors, h, strokeColor, defaultBarColors]

/-- C3 amended witness: the one-color palette at bar 5. -/
theorem palette_fallback_live_only_witness :
    strokeColor (liveBarColors ["#000000"]) 5 = defaultBarColors[5 % 2]? ∧
    strokeColor (["#000000"].drop 1) 5 = none :=
  palette_fallback_live_only ["#000000"] (by decide) 5

/-- The missing-analyser claim as stated: with no analysis node attached the
effect still produces a frame (static elements included) rather than
skipping rendering entirely. -/
def claimStaticRenderWithoutAnalyser : Prop :=
  ∀ (colors : List String) (image : Option Image) (videoTitle : String)
    (prev : List ℚ) (width height : ℚ),
    (useEffectFirstFrame none colors image videoTitle prev width height).isSome = true

/-- C6 counterexample: the effect returns at line 34 before any drawing, so
with no analyser node nothing at all is rendered. -/
theorem static_render_counterexample : ¬ claimStaticRenderWithoutAnalyser := by
  intro h
  exact absurd (h ["#000000"] none "" [] 100 100) (by decide)

/-- C6 amended: when no analysis node is attached the effect returns before
creating any drawing — no frame (not even the static elements) is
produced. -/
theorem no_analyser_skips_rendering (colors : List String) (image : Option Image)
    (videoTitle : String) (prev : List ℚ) (width height : ℚ) :
    useEffectFirstFrame none colors image videoTitle prev width height = none := rfl

/-- The capture-session state manipulated by handleDownload's recorder
callbacks (geminiService lines 206-388): the recorder's recording state, the
two audio-graph edges the capture rewires (analyser to speakers, source to
the recording tap), and the App flags. -/
structure CaptureState where
  recorderRecording : Bool
  analyserToSpeakers : Bool
  tapConnected : Bool
  isDownloading : Bool
  isPlaying : Bool
  error : Option String
deriving DecidableEq

/-- The handler recorder.onstop (geminiService lines 264-288): emit the
file, disconnect the recording tap, reconnect the analyser to the speakers
(the try/catch around connect always leaves the edge present), and clear the
downloading and playing flags. -/
def onstopHandler (s : CaptureState) : CaptureState :=
  { s with tapConnected := false, analyserToSpeakers := true,
           isDownloading := false, isPlaying := false }

/-- The function stopRecording (geminiService lines 258-262): call
recorder.stop() when the recorder is recording; stopping fires the onstop
handler. -/
def stopRecording (s : CaptureState) : CaptureState :=
  if s.recorderRecording then onstopHandler { s with recorderRecording := false } else s

/-- The error message of geminiService line 291. -/
def encoderErrorMessage : String := "An error occurred during video creation."

/-- The handler recorder.onerror (geminiService lines 290-293): set the
user-visible error, then stopRecording. -/
def onerrorHandler (s : CaptureState) : CaptureState :=
  stopRecording { s with error := some encoderErrorMessage }

/-- C4: an encoder error mid-capture runs exactly the restoration logic of
the success path (the onstop handler), leaving the analyser reconnected to
the output destination and the downloading flag cleared. -/
theorem encoder_error_restores_routing (s : CaptureState)
    (h : s.recorderRecording = true) :
    onerrorHandler s =
      onstopHandler { s with recorderRecording := false, error := some encoderErrorMessage } ∧
    (onerrorHandler s).analyserToSpeakers = true ∧
    (onerrorHandler s).isDownloading = false ∧
    ((onerrorHandler s).error).isSome = true := by
  have hstep : onerrorHandler s =
      onstopHandler { s with recorderRecording := false, error := some encoderErrorMessage } := by
    unfold onerrorHandler stopRecording
    rw [if_pos]
    exact h
  refine ⟨hstep, ?_, ?_, ?_⟩ <;> rw [hstep] <;> rfl

/-- C4 witness: a mid-capture state with the analyser detached. -/
theorem encoder_error_restores_routing_witness :
    onerrorHandler ⟨true, false, true, true, true, none⟩ =
      onstopHandler ⟨false, false, true, true, true, some encoderErrorMessage⟩ ∧
    (onerrorHandler ⟨true, false, true, true, true, none⟩).analyserToSpeakers = true ∧
    (onerrorHandler ⟨true, false, true, true, true, none⟩).isDownloading = false ∧
    ((onerrorHandler ⟨true, false, true, true, true, none⟩).error).isSome = true :=
  encoder_error_restores_routing ⟨true, false, true, true, true, none⟩ rfl

/-- The download-session state threaded through handleDownload
(geminiService lines 206-388). -/
structure DownloadState where
  encoderAllocated : Bool
  encoderStarted : Bool
  tapConnected : Bool
  analyserToSpeakers : Bool
  isDownloading : Bool
  error : Option String
deriving DecidableEq

/-- The error message of geminiService line 383. -/
def playbackErrorMessage : String := "Could not start playback for recording."

/-- The effect of handleDownload when audioEl.play() rejects (geminiService
lines 206-387, failure branch): set the downloading flag and clear the error
(lines 209-210), connect the recording tap (line 232), construct the
MediaRecorder (line 247), disconnect the analyser from the speakers
(line 367), then run the catch handler of play() (lines 381-387): set the
error, clear the downloading flag and reconnect the analyser.
recorder.start() (line 378) is never reached, and the catch handler does not
disconnect the tap. -/
def handleDownloadPlayFails (s : DownloadState) : DownloadState :=
  let s1 := { s with isDownloading := true, error := none }
  let s2 := { s1 with tapConnected := true }
  let s3 := { s2 with encoderAllocated := true }
  let s4 := { s3 with analyserToSpeakers := false }
  { s4 with error := some playbackErrorMessage, isDownloading := false, analyserToSpeakers := true }

/-- The playback-failure claim as stated: the aborted download ends with no
encoder allocated, the recording tap released, the analyser reconnected and
the session not downloading. -/
def claimPlayFailureCleanup : Prop :=
  ∀ s : DownloadState,
    (handleDownloadPlayFails s).encoderAllocated = false ∧
    (handleDownloadPlayFails s).tapConnected = false ∧
    (handleDownloadPlayFails s).analyserToSpeakers = true ∧
    (handleDownloadPlayFails s).isDownloading = false

/-- C5 counterexample: starting from an idle session, the failure path still
ends with the MediaRecorder allocated (it is constructed before play() is
attempted) and the recording tap connected. -/
theorem play_failure_cleanup_counterexample : ¬ claimPlayFailureCleanup := by
  intro h
  exact absurd (h ⟨false, false, false, true, false, none⟩).1 (by decide)

/-- C5 amended: on playback failure the encoder, although already allocated
before the playback attempt, is never started; the analyser is reconnected
to the output and the downloading flag cleared with an error surfaced; the
recording tap is not released. -/
theorem play_failure_cleanup (s : DownloadState) :
    (handleDownloadPlayFails s).encoderStarted = s.encoderStarted ∧
    (handleDownloadPlayFails s).encoderAllocated = true ∧
    (handleDownloadPlayFails s).tapConnected = true ∧
    (handleDownloadPlayFails s).analyserToSpeakers = true ∧
    (handleDownloadPlayFails s).isDownloading = false ∧
    ((handleDownloadPlayFails s).error).isSome = true := by
  refine ⟨rfl, rfl, rfl, rfl, rfl, rfl⟩

/-- The aspect-ratio presets ('16:9' and '9:16'). -/
inductive AspectRatio where
  | sixteenByNine
  | nineBySixteen
deriving DecidableEq

/-- RESOLUTIONS (geminiService lines 76-79): the offscreen surface size for
each preset, as (width, height). -/
def RESOLUTIONS : AspectRatio → ℕ × ℕ
  | .sixteenByNine => (1920, 1080)
  | .nineBySixteen => (1080, 1920)

/-- JS `name.split('.')`, modelled over the character list: cut at every dot
(the result always has at least one, possibly empty, segment). -/
def splitDot : List Char → List (List Char)
  | [] => [[]]
  | c :: cs =>
      let rest := splitDot cs
      if c = '.' then [] :: rest
      else (c :: rest.headD []) :: rest.tail

/-- The download file name (geminiService line 269):
`${file.name.split('.')[0]}_visualizer.webm`. -/
def downloadFileName (fileName : String) : String :=
  String.mk ((splitDot fileName.data).headD []) ++ "_visualizer.webm"

/-- Modelled from the claim's words: derive the base name by stripping the
existing extension — the suffix starting at the last dot — when there is
one, then append the fixed suffix and container extension. -/
def stripExtensionName (fileName : String) : String :=
  (if fileName.data.contains '.' then
    String.mk (((fileName.data.reverse.dropWhile (· ≠ '.')).drop 1).reverse)
  else fileName) ++ "_visualizer.webm"

/-- The naming-and-resolution claim as stated: the two presets map to their
fixed sizes and every file name is derived by stripping the existing
extension before appending the fixed suffix. -/
def claimDownloadNaming : Prop :=
  RESOLUTIONS .nineBySixteen = (1080, 1920) ∧
  RESOLUTIONS .sixteenByNine = (1920, 1080) ∧
  ∀ name : String, downloadFileName name = stripExtensionName name

/-- C7 counterexample: for the input name archive.tar.gz the code keeps only
the part before the FIRST dot, yielding archive_visualizer.webm, while
stripping the extension would yield archive.tar_visualizer.webm. -/
theorem download_naming_counterexample : ¬ claimDownloadNaming := by
  intro h
  exact absurd (h.2.2 "archive.tar.gz") (by decide)

/-- C7 amended: 9:16 allocates 1080×1920 and 16:9 allocates 1920×1080; the
output name is the part of the input name before its first dot plus
_visualizer.webm — which strips exactly the extension whenever the base name
itself contains no dot, as in song.mp3, but not for names such as
archive.tar.gz. -/
theorem download_naming :
    RESOLUTIONS .nineBySixteen = (1080, 1920) ∧
    RESOLUTIONS .sixteenByNine = (1920, 1080) ∧
    downloadFileName "song.mp3" = "song_visualizer.webm" ∧
    downloadFileName "song.mp3" = stripExtensionName "song.mp3" ∧
    downloadFileName "archive.tar.gz" = "archive_visualizer.webm" := by
  refine ⟨rfl, rfl, ?_, ?_, ?_⟩ <;> decide

/-- The palette-related slice of App state. -/
structure PaletteState where
  colors : List String
  isGenerating : Bool
  error : Option String
deriving DecidableEq

/-- The message of the error thrown at geminiService line 181. -/
def invalidPaletteMessage : String :=
  "AI did not return a valid palette. Please try a different prompt."

/-- App.handleGeneratePalette (geminiService lines 175-190), applied to the
outcome of the external palette provider: set the generating flag and clear
the error; reject a palette shorter than 2 (line 180) without touching the
colors; otherwise accept it; on provider failure keep the colors and surface
the message; finally clear the generating flag. -/
def handleGeneratePalette (result : Except String (List String))
    (s : PaletteState) : PaletteState :=
  let s1 := { s with isGenerating := true, error := none }
  let s2 :=
    match result with
    | .error e => { s1 with error := some e }
    | .ok palette =>
        if palette.length < 2 then { s1 with error := some invalidPaletteMessage }
        else { s1 with colors := palette }
  { s2 with isGenerating := false }

/-- C9: a provider result is accepted into the palette only when its length
is at least 2; on provider failure or a too-short result the previous
palette is left unchanged, the generating flag ends idle, and a user-visible
error is set. -/
theorem palette_acceptance (result : Except String (List String)) (s : PaletteState) :
    (handleGeneratePalette result s).isGenerating = false ∧
    (∀ p, result = .ok p → 2 ≤ p.length →
      (handleGeneratePalette result s).colors = p ∧
      (handleGeneratePalette result s).error = none) ∧
    (∀ p, result = .ok p → p.length < 2 →
      (handleGeneratePalette result s).colors = s.colors ∧
      ((handleGeneratePalette result s).error).isSome = true) ∧
    (∀ e, result = .error e →
      (handleGeneratePalette result s).colors = s.colors ∧
      ((handleGeneratePalette result s).error).isSome = true) := by
  refine ⟨?_, ?_, ?_, ?_⟩
  · cases result with
    | error e => rfl
    | ok p =>
        by_cases hp : p.length < 2 <;> simp [handleGeneratePalette, hp]
  · rintro p rfl hlen
    simp [handleGeneratePalette, Nat.not_lt.mpr hlen]
  · rintro p rfl hlen
    simp [handleGeneratePalette, hlen]
  · rintro e rfl
    simp [handleGeneratePalette]

/-- C9 witness: the five-color provider result of the end-to-end scenario
replaces the palette. -/
theorem palette_acceptance_witness :
    (handleGeneratePalette
        (.ok ["#01030a", "#00FFD1", "#FF6B00", "#00BFFF", "#FFD700"])
        ⟨["#000000", "#8A2BE2", "#FFFFFF"], false, none⟩).colors =
      ["#01030a", "#00FFD1", "#FF6B00", "#00BFFF", "#FFD700"] :=
  ((palette_acceptance (.ok ["#01030a", "#00FFD1", "#FF6B00", "#00BFFF", "#FFD700"])
    ⟨["#000000", "#8A2BE2", "#FFFFFF"], false, none⟩).2.1 _ rfl (by decide)).1

end MusicVisualizer
